import Mathlib

/-!
Shallow embedding of the `afip` package (files `afip/credentials.py`,
`afip/ws.py`, `afip/wsaa.py`, `afip/wsfe.py`) and proofs about it.

Modelling conventions:
* Wall-clock timestamps are integers (`Int`).  Python's `time.time()` /
  `datetime.now()` readings are passed in explicitly, one argument per
  reading the source takes, in source order.
* External collaborators (the XML parser `xml.etree.ElementTree`, the
  timestamp parser `dateutil.parser.parse(...).timestamp()`, the isoformat
  renderer) are modelled as explicit function parameters or as structural
  projections of an already-parsed document.
* File-system state is an association list from path to content; an absent
  key is an absent file.
* Python exceptions are `Except` errors.
-/

namespace Afip

/-! ## credentials.py -/

/-- `TOKEN_EXPIRATION_OFFSET = -600` (credentials.py line 5). -/
def TOKEN_EXPIRATION_OFFSET : Int := -600

/-- A well-formed login-ticket response document, represented by the text
content found at the three fixed structural paths the source reads
(`header/expirationTime`, `credentials/token`, `credentials/sign`).
The value stands for the exact raw document; the projection of those paths
out of the XML text is `xml.etree.ElementTree`, an external collaborator. -/
structure RawDoc where
  expirationTime : String
  token : String
  sign : String
  deriving DecidableEq, Repr

/-- `LoginTicket` (credentials.py lines 15-23): holds the raw document, the
expiration string, the parsed-and-offset expiration timestamp, the token and
the signature. -/
structure LoginTicket where
  xml : RawDoc
  expires_str : String
  expires : Int
  token : String
  signature : String
  deriving DecidableEq, Repr

/-- `LoginTicket.__init__(xml, expiration_offset=TOKEN_EXPIRATION_OFFSET)`:
`expires_str` is the text at `header/expirationTime`; `expires` is
`dateutil.parser.parse(expires_str).timestamp() + expiration_offset`
(`parseTs` models the dateutil collaborator); `token` and `signature` are the
texts at `credentials/token` and `credentials/sign`. -/
def LoginTicket.ofXml (parseTs : String → Int) (xml : RawDoc)
    (expiration_offset : Int := TOKEN_EXPIRATION_OFFSET) : LoginTicket :=
  { xml := xml
    expires_str := xml.expirationTime
    expires := parseTs xml.expirationTime + expiration_offset
    token := xml.token
    signature := xml.sign }

/-- `LoginTicket.is_expired` (credentials.py lines 25-28): returns `True`
exactly when `time.time() >= self.expires`; `now` is the clock reading taken
at the moment of the call. -/
def LoginTicket.is_expired (t : LoginTicket) (now : Int) : Bool :=
  if now ≥ t.expires then true else false

/-! ## ws.py — token store (`WebServiceTool.get_ticket`) and the save done by
`WSAATool.authorize` (wsaa.py lines 113-116). -/

/-- A file system / persisted store: association list path ↦ content.  A
missing key is a missing file.  Lookup takes the first binding. -/
def FS (α : Type) : Type := List (String × α)

/-- `open(path)` / file lookup. -/
def FS.read (fs : FS α) (path : String) : Option α :=
  (fs.find? (fun e => e.1 = path)).map (·.2)

/-- `os.path.exists(path)`. -/
def FS.pathExists (fs : FS α) (path : String) : Bool :=
  (fs.read path).isSome

/-- `os.unlink(path)`: removes every binding of `path`. -/
def FS.unlink (fs : FS α) (path : String) : FS α :=
  fs.filter (fun e => e.1 ≠ path)

/-- `open(path, 'w')` + write: the new content supersedes any prior one. -/
def FS.write (fs : FS α) (path : String) (content : α) : FS α :=
  (path, content) :: fs.unlink path

/-- The persisted ticket store maps paths to raw ticket documents (file
contents round-trip verbatim through the file system). -/
abbrev TokenStore := FS RawDoc

/-- Errors raised by the embedded Python code. -/
inductive PyError where
  | fileNotFound : PyError
  | keyError : PyError
  | indexError : PyError
  | typeError : PyError
  deriving DecidableEq, Repr

/-- The token file path `os.path.join(self.token_dir, profile + '.' + service
+ '.xml')` (ws.py line 57); `token_dir` is a fixed per-installation prefix. -/
def ticketPath (profile service : String) : String :=
  "tokens/" ++ profile ++ "." ++ service ++ ".xml"

/-- `WebServiceTool.get_ticket` (ws.py lines 56-63): `open(path)` raises
`FileNotFoundError` when no file is persisted; otherwise the content is
parsed into a `LoginTicket` (with the default offset); if it is expired the
file is unlinked and `None` is returned; otherwise the ticket is returned
and the store is untouched.  Returns the resulting store next to the
result. -/
def get_ticket (parseTs : String → Int) (store : TokenStore)
    (profile service : String) (now : Int) :
    Except PyError (Option LoginTicket × TokenStore) :=
  match store.read (ticketPath profile service) with
  | none => .error .fileNotFound
  | some raw =>
    let ticket := LoginTicket.ofXml parseTs raw
    if ticket.is_expired now then
      .ok (none, store.unlink (ticketPath profile service))
    else
      .ok (some ticket, store)

/-- The store step of `WSAATool.authorize` (wsaa.py lines 113-116): writes
`ticket.xml` — the raw document held by the ticket — at the same path
`get_ticket` reads. -/
def save_ticket (store : TokenStore) (profile service : String)
    (ticket : LoginTicket) : TokenStore :=
  store.write (ticketPath profile service) ticket.xml

/-! ## wsaa.py -/

/-- wsaa.py line 17. -/
def WSDL_URL_TESTING : String :=
  "https://wsaahomo.afip.gov.ar/ws/services/LoginCms?wsdl"

/-- wsaa.py line 18. -/
def WSDL_URL_PRODUCTION : String :=
  "https://wsaa.afip.gov.ar/ws/services/LoginCms?wsdl"

/-- `TRA_TTL = 24 * 3600` (wsaa.py line 19). -/
def TRA_TTL : Int := 24 * 3600

/-- wsaa.py line 20. -/
def TRA_DESTINATION_TESTING : String :=
  "cn=wsaahomo,o=afip,c=ar,serialNumber=CUIT 33693450239"

/-- wsaa.py line 21. -/
def TRA_DESTINATION_PRODUCTION : String :=
  "cn=wsaa,o=afip,c=ar,serialNumber=CUIT 33693450239"

/-- The WSDL endpoint chosen by `WSAAClient.__init__` (wsaa.py line 26):
`WSDL_URL_PRODUCTION if credentials.production else WSDL_URL_TESTING`. -/
def wsaaWsdl (production : Bool) : String :=
  if production then WSDL_URL_PRODUCTION else WSDL_URL_TESTING

/-- The content of the login-ticket-request document built by
`WSAAClient.make_tra`: optional source and destination, and the three
timestamps it computes.  Rendering to the XML string is `renderTRA`. -/
structure TRA where
  source : Option String
  destination : Option String
  uniqueId : Int
  generationTime : Int
  expirationTime : Int
  service : String
  deriving DecidableEq, Repr

/-- `WSAAClient.make_tra(service, source=None, destination=None, ttl=TRA_TTL)`
(wsaa.py lines 34-45).  The three clock readings the source takes, in order,
are passed explicitly: `t1` for `int(time.time())` (the uniqueId, truncated
to whole seconds by the caller of the model), `t2` for the `datetime.now`
of `generationTime`, and `t3` for the separate `datetime.now` of
`expirationTime`, which the source computes as that second reading plus
`ttl`.  No input is validated. -/
def make_tra (service : String) (source destination : Option String)
    (ttl : Int) (t1 t2 t3 : Int) : TRA :=
  { source := source
    destination := destination
    uniqueId := t1
    generationTime := t2
    expirationTime := t3 + ttl
    service := service }

/-- The f-string rendering of `make_tra` (wsaa.py lines 35-45), with
`renderTs` standing for `datetime.isoformat` applied to a timestamp.
`source` is emitted when it `is not None`; `destination` is emitted on Python
truthiness, so an empty destination string is dropped too.  The prolog
reproduces the source byte-for-byte, including the U+00AD soft hyphen in
`UTF­8`. -/
def renderTRA (renderTs : Int → String) (tra : TRA) : String :=
  let source := match tra.source with
    | some s => "<source>" ++ s ++ "</source>"
    | none => ""
  let destination := match tra.destination with
    | some d => if d = "" then "" else "<destination>" ++ d ++ "</destination>"
    | none => ""
  let unique_id := "<uniqueId>" ++ toString tra.uniqueId ++ "</uniqueId>"
  let created_at := "<generationTime>" ++ renderTs tra.generationTime ++ "</generationTime>"
  let expires_at := "<expirationTime>" ++ renderTs tra.expirationTime ++ "</expirationTime>"
  let header := source ++ destination ++ unique_id ++ created_at ++ expires_at
  let body := "<header>" ++ header ++ "</header><service>" ++ tra.service ++ "</service>"
  "<?xml version=\"1.0\" encoding=\"UTF­8\"?><loginTicketRequest version=\"1.0\">"
    ++ body ++ "</loginTicketRequest>"

/-- A MIME part of the e-mail rendering of the signed message in
`WSAAClient.sign_tra`: its filename (`p.get_filename()`, `None` when the
part has no filename) and its payload (`p.get_payload(decode=False)`). -/
structure MimePart where
  filename : Option String
  payload : String
  deriving DecidableEq, Repr

/-- The unwrap loop of `WSAAClient.sign_tra` (wsaa.py lines 61-65): walk the
parts in order; on the first part whose filename is `"smime.p7m"` return its
payload undecoded; falling off the loop returns `None`. -/
def sign_tra_unwrap : List MimePart → Option String
  | [] => none
  | p :: rest =>
    if p.filename = some "smime.p7m" then some p.payload
    else sign_tra_unwrap rest

/-- The request document built by `WSAAClient.authorize` (wsaa.py lines
67-76): `make_tra(service)` with every other parameter left at its default —
in particular no destination is passed, whatever the environment the client
was constructed for.  `production` is the client's `credentials.production`
flag; it does not occur in the construction, exactly as in the source. -/
def wsaaAuthorizeTra (production : Bool) (service : String)
    (t1 t2 t3 : Int) : TRA :=
  make_tra service none none TRA_TTL t1 t2 t3

/-! ## wsfe.py — error envelope checking and result projection -/

/-- A value of the structured nested mapping `zeep.helpers.serialize_object`
returns: `None`, a string, a number, a list, or a string-keyed mapping. -/
inductive Val where
  | null : Val
  | str : String → Val
  | num : Int → Val
  | list : List Val → Val
  | obj : List (String × Val) → Val

/-- Python `x is None`. -/
def Val.isNull : Val → Bool
  | .null => true
  | _ => false

/-- Python `d.get(k)` on a serialized mapping: `Val.null` when the key is
absent (so that, as in the source, an absent key and a stored `None` are
indistinguishable through `.get`). -/
def Val.get (v : Val) (k : String) : Val :=
  match v with
  | .obj kvs => ((kvs.find? (fun e => e.1 = k)).map (·.2)).getD .null
  | _ => .null

/-- Python `k in d` / `d[k]` key presence.  The serialized `Errors` member of
a WSFE response is a mapping (or nil) by the service schema, so only the
mapping case arises for the membership test the source performs. -/
def Val.hasKey (v : Val) (k : String) : Bool :=
  match v with
  | .obj kvs => kvs.any (fun e => e.1 = k)
  | _ => false

/-- Python `d[k]`: `keyError` when absent. -/
def Val.getItem (v : Val) (k : String) : Except PyError Val :=
  match v with
  | .obj kvs =>
    match (kvs.find? (fun e => e.1 = k)).map (·.2) with
    | some x => .ok x
    | none => .error .keyError
  | _ => .error .typeError

/-- What a WSFE invocation can raise. -/
inductive WSFEOutcome where
  | pyError : PyError → WSFEOutcome
  | webServiceError : Val → Val → WSFEOutcome

/-- `WSFEClient._check_errors(ret)` (wsfe.py lines 25-29): returns normally
when `ret.get('Errors') is None or 'Err' not in ret['Errors']`; otherwise
takes `errors = ret['Errors']['Err']` and raises
`WebServiceError(errors[0]['Code'], errors[0]['Msg'])` (an `IndexError` on
an empty list, a `TypeError` if the serialized `Err` is not a list). -/
def check_errors (ret : Val) : Except WSFEOutcome Unit :=
  if (ret.get "Errors").isNull then .ok ()
  else if ¬ (ret.get "Errors").hasKey "Err" then .ok ()
  else
    match (ret.get "Errors").get "Err" with
    | .list [] => .error (.pyError .indexError)
    | .list (e :: _) =>
      match e.getItem "Code", e.getItem "Msg" with
      | .ok c, .ok m => .error (.webServiceError c m)
      | .error err, _ => .error (.pyError err)
      | _, .error err => .error (.pyError err)
    | _ => .error (.pyError .typeError)

/-- The response-handling tail of `WSFEClient._invoke` (wsfe.py lines
31-40): `ret` is the serialized response produced by the transport
collaborator (`getattr(self.client.service, endpoint)(...)` followed by
`serialize_object`); the code then runs `_check_errors`, returns `ret` whole
when `result_key is None`, and `ret[result_key]` otherwise. -/
def invoke (ret : Val) (result_key : Option String) : Except WSFEOutcome Val :=
  match check_errors ret with
  | .error e => .error e
  | .ok () =>
    match result_key with
    | none => .ok ret
    | some k =>
      match ret.getItem k with
      | .ok v => .ok v
      | .error err => .error (.pyError err)

/-! ## ws.py — `ProfileTool.add` (lines 107-135) -/

/-- A character of the class `[a-zA-Z_\-0-9]`. -/
def isProfileNameChar (c : Char) : Bool :=
  c.isAlpha || c.isDigit || c = '_' || c = '-'

/-- `re.match(r'^[a-zA-Z_\-0-9]+$', s) is not None`.  Python's `$` (without
`re.MULTILINE`) also matches just before one newline at the very end of the
string, so a name consisting of one or more class characters followed by a
single trailing `'\n'` passes the check too. -/
def profile_name_ok (s : String) : Bool :=
  let core := if s.endsWith "\n" then s.dropRight 1 else s
  !core.isEmpty && core.all isProfileNameChar

/-- `WebServiceTool.get_profile_path(profile, extension)` (ws.py lines
53-54): `os.path.join(self.credentials_dir, profile + '.' + extension)`;
`credentials_dir` is a fixed per-installation prefix. -/
def get_profile_path (profile extension : String) : String :=
  "credentials/" ++ profile ++ "." ++ extension

/-- The descriptor content `json.dump(dict(crt_path=..., key_path=...,
environment=...))` writes (ws.py lines 133-135), rendered with Python's
default JSON separators; values are taken verbatim (the paths and
environments involved contain no character JSON would escape). -/
def profileJson (crt_path key_path environment : String) : String :=
  "\x7b\"crt_path\": \"" ++ crt_path ++ "\", \"key_path\": \"" ++ key_path
    ++ "\", \"environment\": \"" ++ environment ++ "\"\x7d"

/-- `ProfileTool.add(args)` (ws.py lines 107-135) over the file-system state
`fs`: an ill-formed name, an environment outside `('testing', 'production')`,
or an already existing descriptor path each print a message and return with
no file touched; otherwise the certificate at `args.crt_path` and the key at
`args.key_path` are copied under the profile's `.crt` / `.key` paths (a
missing source file raises `FileNotFoundError`) and the JSON descriptor is
written last. -/
def profile_add (fs : FS String) (name crt_path_arg key_path_arg environment : String) :
    Except PyError (FS String) :=
  if ¬ profile_name_ok name then .ok fs
  else if ¬ (environment = "testing" ∨ environment = "production") then .ok fs
  else if fs.pathExists (get_profile_path name "json") then .ok fs
  else
    let crt_path := get_profile_path name "crt"
    match fs.read crt_path_arg with
    | none => .error .fileNotFound
    | some crt_content =>
      let fs1 := fs.write crt_path crt_content
      let key_path := get_profile_path name "key"
      match fs1.read key_path_arg with
      | none => .error .fileNotFound
      | some key_content =>
        let fs2 := fs1.write key_path key_content
        .ok (fs2.write (get_profile_path name "json")
              (profileJson crt_path key_path environment))

/-! ## Theorems -/

/-- C1: for every ticket built with the default 600-second safety offset and
every wall-clock time `now`, `is_expired` evaluated at `now` returns `true`
iff `now ≥ declaredExpiration − 600`.  The verdict is a pure function of the
clock reading passed at the call — the embedding takes the reading as an
argument of `is_expired` itself, exactly because the source re-reads
`time.time()` inside the method on every call and stores no verdict. -/
theorem is_expired_iff_offset (parseTs : String → Int) (raw : RawDoc) (now : Int) :
    (LoginTicket.ofXml parseTs raw).is_expired now = true ↔
      now ≥ parseTs raw.expirationTime - 600 := by
  simp only [LoginTicket.ofXml, LoginTicket.is_expired, TOKEN_EXPIRATION_OFFSET]
  constructor
  · intro h
    by_contra hc
    simp only [if_neg (by omega : ¬ now ≥ parseTs raw.expirationTime + -600)] at h
    exact Bool.false_ne_true h
  · intro h
    simp only [if_pos (by omega : now ≥ parseTs raw.expirationTime + -600)]

/-- C8: a ticket parsed with the default safety offset has effective
expiration exactly the declared (parsed) expiration minus 600 seconds, hence
strictly earlier than the declared expiration, and carries the document's
credential token and signature verbatim. -/
theorem ofXml_default_offset_fields (parseTs : String → Int) (raw : RawDoc) :
    (LoginTicket.ofXml parseTs raw).expires = parseTs raw.expirationTime - 600 ∧
    (LoginTicket.ofXml parseTs raw).expires < parseTs raw.expirationTime ∧
    (LoginTicket.ofXml parseTs raw).token = raw.token ∧
    (LoginTicket.ofXml parseTs raw).signature = raw.sign := by
  refine ⟨?_, ?_, rfl, rfl⟩ <;>
    simp only [LoginTicket.ofXml, TOKEN_EXPIRATION_OFFSET] <;> omega

/-- C2 (counterexample): on a store with no persisted entry, `get_ticket`
does not return absent — `open(path)` raises `FileNotFoundError`. -/
theorem get_ticket_absent_raises :
    get_ticket (fun _ => 0) [] "p" "s" 0 = .error .fileNotFound := rfl

/-- C2 (amended): when no entry is persisted, `get_ticket` raises
`FileNotFoundError` (it does not return absent); when the persisted entry
parses to an expired ticket, it deletes the backing record and returns
absent, and a subsequent existence check on the record is negative;
otherwise it returns the parsed ticket and leaves the store unchanged. -/
theorem get_ticket_cases (parseTs : String → Int) (store : TokenStore)
    (p s : String) (now : Int) :
    (store.read (ticketPath p s) = none →
      get_ticket parseTs store p s now = .error .fileNotFound) ∧
    (∀ raw, store.read (ticketPath p s) = some raw →
      ((LoginTicket.ofXml parseTs raw).is_expired now = true →
        get_ticket parseTs store p s now =
          .ok (none, store.unlink (ticketPath p s)) ∧
        (store.unlink (ticketPath p s)).pathExists (ticketPath p s) = false) ∧
      ((LoginTicket.ofXml parseTs raw).is_expired now = false →
        get_ticket parseTs store p s now =
          .ok (some (LoginTicket.ofXml parseTs raw), store))) := by
  refine ⟨fun h => ?_, fun raw h => ⟨fun hexp => ⟨?_, ?_⟩, fun hval => ?_⟩⟩
  · simp only [get_ticket, h]
  · simp only [get_ticket, h, hexp, if_true]
  · have hn : (store.unlink (ticketPath p s)).read (ticketPath p s) = none := by
      simp only [FS.unlink, FS.read, Option.map_eq_none']
      rw [List.find?_eq_none]
      intro x hx
      simp only [List.mem_filter, decide_not, Bool.not_eq_eq_eq_not, Bool.not_true,
        decide_eq_false_iff_not] at hx
      simp [hx.2]
    simp [FS.pathExists, hn]
  · simp only [get_ticket, h, hval, Bool.false_eq_true, if_false]

/-- Witness for C2's amended theorem: a concrete expired entry is deleted
and absent is returned. -/
theorem get_ticket_cases_witness :
    get_ticket (fun _ => 0) [(ticketPath "p" "s", RawDoc.mk "E" "T" "S")] "p" "s" 500 =
      .ok (none, FS.unlink [(ticketPath "p" "s", RawDoc.mk "E" "T" "S")] (ticketPath "p" "s")) ∧
    FS.pathExists (FS.unlink [(ticketPath "p" "s", RawDoc.mk "E" "T" "S")] (ticketPath "p" "s"))
      (ticketPath "p" "s") = false :=
  ((get_ticket_cases (fun _ => 0) [(ticketPath "p" "s", RawDoc.mk "E" "T" "S")] "p" "s" 500).2
    (RawDoc.mk "E" "T" "S") rfl).1 (by decide)

/-- C3: saving a freshly parsed, non-expired ticket for `(profile, service)`
and immediately loading the pair returns that very ticket — hence equal in
token, signature and expiration — leaves the store as saved, and the
persisted record is the raw document the ticket was parsed from,
verbatim. -/
theorem save_load_roundtrip (parseTs : String → Int) (store : TokenStore)
    (p s : String) (raw : RawDoc) (now : Int)
    (h : (LoginTicket.ofXml parseTs raw).is_expired now = false) :
    get_ticket parseTs (save_ticket store p s (LoginTicket.ofXml parseTs raw)) p s now =
      .ok (some (LoginTicket.ofXml parseTs raw),
        save_ticket store p s (LoginTicket.ofXml parseTs raw)) ∧
    (save_ticket store p s (LoginTicket.ofXml parseTs raw)).read (ticketPath p s) =
      some raw := by
  have hread : (save_ticket store p s (LoginTicket.ofXml parseTs raw)).read (ticketPath p s)
      = some raw := by
    simp [save_ticket, FS.write, FS.read, LoginTicket.ofXml]
  refine ⟨?_, hread⟩
  simp only [get_ticket, hread, h, Bool.false_eq_true, if_false]

/-- Witness for C3: a concrete non-expired ticket round-trips. -/
theorem save_load_roundtrip_witness :
    get_ticket (fun _ => 1000) (save_ticket [] "p" "s"
        (LoginTicket.ofXml (fun _ => 1000) (RawDoc.mk "E" "T" "S"))) "p" "s" 0 =
      .ok (some (LoginTicket.ofXml (fun _ => 1000) (RawDoc.mk "E" "T" "S")),
        save_ticket [] "p" "s" (LoginTicket.ofXml (fun _ => 1000) (RawDoc.mk "E" "T" "S"))) ∧
    (save_ticket [] "p" "s" (LoginTicket.ofXml (fun _ => 1000)
        (RawDoc.mk "E" "T" "S"))).read (ticketPath "p" "s") = some (RawDoc.mk "E" "T" "S") :=
  save_load_roundtrip (fun _ => 1000) [] "p" "s" (RawDoc.mk "E" "T" "S") 0 (by decide)

/-- C4: a response whose `Errors` member is `{Err: [{Code: 10016, Msg: "x"},
...]}` makes `_invoke` raise `WebServiceError(10016, "x")`, taken from the
first error record; a response whose `Errors` member is nil passes the check
and `_invoke` returns the substructure at `result_key` unmodified, or the
whole response when `result_key` is `None`. -/
theorem invoke_error_envelope (ret : Val) (rk : Option String) :
    (∀ rest, ret.get "Errors" =
        Val.obj [("Err", Val.list
          (Val.obj [("Code", Val.num 10016), ("Msg", Val.str "x")] :: rest))] →
      invoke ret rk = .error (.webServiceError (Val.num 10016) (Val.str "x"))) ∧
    (ret.get "Errors" = Val.null →
      (rk = none → invoke ret rk = .ok ret) ∧
      (∀ k v, rk = some k → ret.getItem k = .ok v → invoke ret rk = .ok v)) := by
  constructor
  · intro rest h
    unfold invoke check_errors
    rw [h]
    simp [Val.isNull, Val.hasKey, Val.get, Val.getItem]
  · intro h
    have hok : check_errors ret = .ok () := by
      simp only [check_errors, h, Val.isNull, if_true]
    refine ⟨fun hrk => ?_, fun k v hrk hget => ?_⟩
    · simp only [invoke, hok, hrk]
    · simp only [invoke, hok, hrk, hget]

/-- Witness for C4: a concrete faulting response and a concrete nil-`Errors`
response with a `ResultGet` member. -/
theorem invoke_error_envelope_witness :
    invoke (Val.obj [("Errors", Val.obj [("Err", Val.list
        [Val.obj [("Code", Val.num 10016), ("Msg", Val.str "x")]])])]) (some "ResultGet") =
      .error (.webServiceError (Val.num 10016) (Val.str "x")) ∧
    invoke (Val.obj [("Errors", Val.null), ("ResultGet", Val.str "r")]) (some "ResultGet") =
      .ok (Val.str "r") :=
  ⟨(invoke_error_envelope
      (Val.obj [("Errors", Val.obj [("Err", Val.list
        [Val.obj [("Code", Val.num 10016), ("Msg", Val.str "x")]])])]) (some "ResultGet")).1
      [] rfl,
   ((invoke_error_envelope
      (Val.obj [("Errors", Val.null), ("ResultGet", Val.str "r")]) (some "ResultGet")).2
      rfl).2 "ResultGet" (Val.str "r") rfl rfl⟩

/-- C5 (counterexample): a non-positive ttl is not rejected — `make_tra`
validates nothing, so at `ttl = 0` it still renders a complete request
document (root version attribute `"1.0"`), instead of failing with any
`InvalidArgument`-like error. -/
theorem make_tra_zero_ttl_produces_document :
    renderTRA toString (make_tra "wsfe" none none 0 0 0 0) =
      "<?xml version=\"1.0\" encoding=\"UTF­8\"?><loginTicketRequest version=\"1.0\"><header><uniqueId>0</uniqueId><generationTime>0</generationTime><expirationTime>0</expirationTime></header><service>wsfe</service></loginTicketRequest>" := by
  rfl

/-- C5 (amended): `make_tra` has no failure modes at all — for every service
name, optional source/destination, every ttl (positive or not) and every
sequence of clock readings it produces a request document whose root is the
fixed prolog with version attribute `"1.0"` closed by the matching end
tag. -/
theorem make_tra_total_wellformed (renderTs : Int → String) (service : String)
    (source destination : Option String) (ttl t1 t2 t3 : Int) :
    ∃ body, renderTRA renderTs (make_tra service source destination ttl t1 t2 t3) =
      "<?xml version=\"1.0\" encoding=\"UTF­8\"?><loginTicketRequest version=\"1.0\">"
        ++ body ++ "</loginTicketRequest>" :=
  ⟨_, rfl⟩

/-- C6 (counterexample): the source takes a second, separate `datetime.now`
reading for `expirationTime`; when the clock advances by one unit between
the `generationTime` reading and that second reading, the rendered
expiration is not `generationTime + 86400`. -/
theorem make_tra_clock_drift :
    (make_tra "wsfe" none none 86400 0 0 1).expirationTime ≠
      (make_tra "wsfe" none none 86400 0 0 1).generationTime + 86400 := by
  decide

/-- C6 (amended): `expirationTime − generationTime = ttl + (t3 − t2)`, where
`t2` and `t3` are the two separate clock readings; the difference is exactly
`ttl` (86400 by default) precisely when the two readings coincide, and
otherwise drifts by the time elapsed between them.  Formatting introduces no
further change: both timestamps are rendered from these exact values. -/
theorem make_tra_expiration_drift (service : String) (source destination : Option String)
    (ttl t1 t2 t3 : Int) :
    (make_tra service source destination ttl t1 t2 t3).expirationTime -
      (make_tra service source destination ttl t1 t2 t3).generationTime
      = ttl + (t3 - t2) := by
  simp only [make_tra]
  ring

/-- C7 (counterexample): the request built by `authorize` carries no
destination realm at all — for a production client its destination is not
the production realm constant (and for a testing client not the testing
one); it is `none` in both environments, because `authorize` calls
`make_tra(service)` with the destination left at its `None` default and the
two realm constants are never used. -/
theorem authorize_tra_realm_cex :
    (wsaaAuthorizeTra true "wsfe" 0 0 0).destination ≠ some TRA_DESTINATION_PRODUCTION ∧
    (wsaaAuthorizeTra false "wsfe" 0 0 0).destination ≠ some TRA_DESTINATION_TESTING ∧
    (wsaaAuthorizeTra true "wsfe" 0 0 0).destination = none := by
  refine ⟨?_, ?_, rfl⟩ <;> simp [wsaaAuthorizeTra, make_tra]

/-- C7 (amended): only the login endpoint is selected by the environment
(the production WSDL exactly when the client is a production one); the
destination realm of the signed request is omitted in every environment. -/
theorem wsaa_env_selection (production : Bool) (service : String) (t1 t2 t3 : Int) :
    (production = true → wsaaWsdl production = WSDL_URL_PRODUCTION) ∧
    (production = false → wsaaWsdl production = WSDL_URL_TESTING) ∧
    (wsaaAuthorizeTra production service t1 t2 t3).destination = none := by
  refine ⟨fun h => ?_, fun h => ?_, rfl⟩ <;> simp [wsaaWsdl, h]

/-- Witness for C7's amended theorem at concrete inputs. -/
theorem wsaa_env_selection_witness :
    wsaaWsdl true = WSDL_URL_PRODUCTION ∧ wsaaWsdl false = WSDL_URL_TESTING ∧
    (wsaaAuthorizeTra true "wsfe" 0 0 0).destination = none :=
  ⟨(wsaa_env_selection true "wsfe" 0 0 0).1 rfl,
   (wsaa_env_selection false "wsfe" 0 0 0).2.1 rfl,
   (wsaa_env_selection true "wsfe" 0 0 0).2.2⟩

/-- C9: the unwrap loop of `sign_tra` returns `None` — raising no error —
when no MIME part of the signed message's e-mail rendering has filename
`"smime.p7m"`, and returns the (undecoded) payload of the first such part
when one exists. -/
theorem sign_tra_unwrap_cases (pre : List MimePart) (p : MimePart) (post : List MimePart)
    (hpre : ∀ q ∈ pre, q.filename ≠ some "smime.p7m")
    (hp : p.filename = some "smime.p7m") :
    sign_tra_unwrap pre = none ∧
    sign_tra_unwrap (pre ++ p :: post) = some p.payload := by
  induction pre with
  | nil => exact ⟨rfl, by simp [sign_tra_unwrap, hp]⟩
  | cons q rest ih =>
    have hq : q.filename ≠ some "smime.p7m" := hpre q (by simp)
    have hrest := ih (fun r hr => hpre r (by simp [hr]))
    exact ⟨by simp [sign_tra_unwrap, hq, hrest.1],
           by simp [sign_tra_unwrap, hq, hrest.2]⟩

/-- Witness for C9 on a concrete two-part message. -/
theorem sign_tra_unwrap_cases_witness :
    sign_tra_unwrap [MimePart.mk none "a"] = none ∧
    sign_tra_unwrap ([MimePart.mk none "a"] ++ MimePart.mk (some "smime.p7m") "PAYLOAD" :: []) =
      some "PAYLOAD" :=
  sign_tra_unwrap_cases [MimePart.mk none "a"] (MimePart.mk (some "smime.p7m") "PAYLOAD") []
    (by decide) rfl

/-- C10: `ProfileTool.add` never overwrites an existing profile — when the
descriptor record for the name already exists, and likewise when the name
fails the `^[a-zA-Z_\-0-9]+$` check (under Python `re.match` semantics) or
the environment is outside `('testing', 'production')`, it returns with the
file system unchanged: no file is created or modified, so the existing
certificate copy, key copy and descriptor are left exactly as they were. -/
theorem profile_add_guard_noop (fs : FS String)
    (name crt_path_arg key_path_arg environment : String)
    (h : profile_name_ok name = false ∨
         ¬ (environment = "testing" ∨ environment = "production") ∨
         fs.pathExists (get_profile_path name "json") = true) :
    profile_add fs name crt_path_arg key_path_arg environment = .ok fs := by
  by_cases hn : profile_name_ok name = true
  · by_cases he : environment = "testing" ∨ environment = "production"
    · have hex : fs.pathExists (get_profile_path name "json") = true := by
        rcases h with h | h | h
        · rw [h] at hn; exact absurd hn (by simp)
        · exact absurd he h
        · exact h
      simp [profile_add, hn, he, hex]
    · simp [profile_add, hn, he]
  · simp [profile_add, hn]

/-- Witness for C10: adding over an existing concrete descriptor leaves the
file system untouched. -/
theorem profile_add_guard_noop_witness :
    profile_add [(get_profile_path "p" "json", "d")] "p" "crt" "key" "testing" =
      .ok [(get_profile_path "p" "json", "d")] :=
  profile_add_guard_noop [(get_profile_path "p" "json", "d")] "p" "crt" "key" "testing"
    (Or.inr (Or.inr (by decide)))

end Afip
